import Mathlib

/-
  Verification of the swarm orchestrator core (orchestrate.py).

  The program dispatches shell commands to a fixed registry of remote
  workers over SSH, either to a single worker (streaming or captured
  mode) or broadcast in parallel to the whole registry, collecting one
  (exit_code, output) pair per worker in a dictionary keyed by worker id.

  Shallow embedding conventions:
  - The remote transport (the SSH subprocess) is an external dependency;
    it is modelled as a parameter of type `Transport`, mapping a worker
    and a command to an abstract behaviour: either the subprocess machinery
    raises a Python exception (`TransportBehavior.raises`), or the ssh
    process runs to completion with an exit status and a sequence of
    line-framed writes to its stdout and stderr (`TransportBehavior.runs`).
    SSH itself reports connection and authentication failures as exit
    status 255 with a diagnostic on stderr; that is captured by `sshRun`.
  - Output is modelled at line granularity: each `OutputEvent` is one
    framed line as it comes out of the remote process, tagged with the
    stream it was written to.  Streaming mode (stderr=subprocess.STDOUT)
    sees the two streams merged in production order; captured mode
    (subprocess.run with capture_output=True) sees them separately.
  - `execute_parallel` runs one thread per worker; each thread writes its
    own key `worker.id` into a shared dict and the threads are all joined
    before the dict is returned.  Since each task writes only its own key
    and computes its value from its own transport call alone, the final
    dict, viewed as a key-value map, does not depend on the order in
    which the threads happen to finish; the embedding therefore fixes
    dispatch order and folds the per-worker updates sequentially.
    Python dict assignment is `dictInsert` (replace the key if present,
    otherwise append); a thread whose task raises writes nothing.
  - Console writes performed inside the streaming loop (one prefixed
    line per output line) are recorded in the `console` field of the
    result; the fixed banner printed before the loop carries no claim
    content and is not recorded.
-/

namespace Orchestrate

/-- WorkerRole enum (orchestrate.py lines 26-29). -/
inductive WorkerRole where
  | BUILD
  | UI
  | INFRA
deriving DecidableEq, Repr

/-- Worker profile (orchestrate.py lines 31-40).  The ssh key path is the
same constant for every worker and is kept as `ssh_key` below. -/
structure Worker where
  id : Int
  ip : String
  role : WorkerRole
  worktree : String
deriving DecidableEq, Repr

/-- Path of the per-worker credential (orchestrate.py line 37). -/
def ssh_key : String := "~/.ssh/ai_swarm_key"

/-- The remote invocation argument vector (orchestrate.py lines 61-67). -/
def ssh_cmd (worker : Worker) (command : String) : List String :=
  ["ssh",
   "-i", ssh_key,
   "-o", "StrictHostKeyChecking=no",
   "root@" ++ worker.ip,
   "cd ~/" ++ worker.worktree ++ " && " ++ command]

def worker1 : Worker := ⟨1, "164.92.118.130", WorkerRole.BUILD, "worktree-1"⟩

def worker2 : Worker := ⟨2, "147.182.243.137", WorkerRole.UI, "worktree-1"⟩

def worker3 : Worker := ⟨3, "161.35.239.20", WorkerRole.INFRA, "worktree-1"⟩

/-- The swarm configuration dict (orchestrate.py lines 43-47), as an
association list in registration order. -/
def SWARM : List (Int × Worker) :=
  [(1, worker1), (2, worker2), (3, worker3)]

/-- list(SWARM.values()) as used by the broadcast helpers. -/
def swarmWorkers : List Worker := SWARM.map (fun p => p.2)

/-- One line-framed write of the remote process, tagged with the stream
(stdout or stderr) it was written to. -/
inductive OutputEvent where
  | out (text : String)
  | err (text : String)
deriving DecidableEq, Repr

/-- The text of an output event, independent of its stream. -/
def OutputEvent.text : OutputEvent → String
  | .out s => s
  | .err s => s

/-- Behaviour of one remote invocation, as seen by execute_on_worker:
either the subprocess machinery raises a Python exception, or the ssh
process runs to completion with an exit status and a sequence of writes. -/
inductive TransportBehavior where
  | runs (returncode : Int) (events : List OutputEvent)
  | raises
deriving DecidableEq, Repr

/-- The transport environment: what happens when a given command is
invoked on a given worker. -/
abbrev Transport := Worker → String → TransportBehavior

/-- The merged stdout+stderr line stream seen in streaming mode
(stderr=subprocess.STDOUT): both streams in production order. -/
def streamedLines (events : List OutputEvent) : List String :=
  events.map OutputEvent.text

/-- Everything the remote process wrote to stdout, in order
(result.stdout in captured mode). -/
def stdoutText (events : List OutputEvent) : String :=
  String.join (events.filterMap fun e =>
    match e with
    | .out s => some s
    | .err _ => none)

/-- Everything the remote process wrote to stderr, in order
(result.stderr in captured mode). -/
def stderrText (events : List OutputEvent) : String :=
  String.join (events.filterMap fun e =>
    match e with
    | .out _ => none
    | .err s => some s)

/-- The full text of all writes, both streams, in exact production
order.  This is the formal reading of the combined output with
internal line order preserved exactly as the remote process produced it. -/
def producedText (events : List OutputEvent) : String :=
  String.join (events.map OutputEvent.text)

/-- The line written to the shared console for one streamed line
(orchestrate.py line 88). -/
def consoleLine (worker : Worker) (line : String) : String :=
  "[Worker " ++ toString worker.id ++ "] " ++ line

/-- Result of one execute_on_worker call: the (returncode, output) pair
the function returns, plus the record of the lines it wrote to the
shared console while streaming. -/
structure ExecutionResult where
  returncode : Int
  output : String
  console : List String
deriving DecidableEq, Repr

/-- execute_on_worker (orchestrate.py lines 49-96).  `none` models the
call propagating an exception instead of returning.  In streaming mode
(lines 74-92) each merged line is printed prefixed with the worker id
and appended to output_lines; the returned output is the concatenation
of the accumulated lines.  In captured mode (lines 93-96) the returned
output is result.stdout followed by result.stderr. -/
def execute_on_worker (tr : Transport) (worker : Worker) (command : String)
    (stream_output : Bool) : Option ExecutionResult :=
  match tr worker command with
  | .raises => none
  | .runs returncode events =>
    if stream_output then
      let output_lines := streamedLines events
      some { returncode := returncode
             output := String.join output_lines
             console := output_lines.map (consoleLine worker) }
    else
      some { returncode := returncode
             output := stdoutText events ++ stderrText events
             console := [] }

/-- Python dict assignment d[k] = v: replace the entry if the key is
present, otherwise append a new entry. -/
def dictInsert {α : Type} (k : Int) (v : α) : List (Int × α) → List (Int × α)
  | [] => [(k, v)]
  | (k2, v2) :: rest =>
    if k2 = k then (k, v) :: rest else (k2, v2) :: dictInsert k v rest

/-- Python dict lookup d[k], as an Option. -/
def dictLookup {α : Type} (k : Int) : List (Int × α) → Option α
  | [] => none
  | (k2, v) :: rest => if k2 = k then some v else dictLookup k rest

/-- The body of worker_task (orchestrate.py lines 112-113): run the
streaming executor and store the (exit_code, output) pair under the
worker id; a raised exception terminates the thread before the store,
leaving the dict untouched. -/
def worker_task (tr : Transport) (command : String)
    (results : List (Int × (Int × String))) (worker : Worker) :
    List (Int × (Int × String)) :=
  match execute_on_worker tr worker command true with
  | some r => dictInsert worker.id (r.returncode, r.output) results
  | none => results

/-- The per-worker result stores of execute_parallel, folded in dispatch
order (see the modelling note at the top of the file: the final map is
independent of thread completion order because each task writes only
its own key). -/
def parallel_loop (tr : Transport) (command : String) :
    List Worker → List (Int × (Int × String)) → List (Int × (Int × String))
  | [], results => results
  | worker :: rest, results =>
    parallel_loop tr command rest (worker_task tr command results worker)

/-- execute_parallel (orchestrate.py lines 98-125): one streaming
executor invocation per worker, results collected into a dict keyed by
worker id, all threads joined before the dict is returned. -/
def execute_parallel (tr : Transport) (workers : List Worker)
    (command : String) : List (Int × (Int × String)) :=
  parallel_loop tr command workers []

/-- One thread-management operation performed by execute_parallel. -/
inductive SchedEvent where
  | start (workerId : Int)
  | join (workerId : Int)
deriving DecidableEq, Repr

def SchedEvent.isStart : SchedEvent → Bool
  | .start _ => true
  | .join _ => false

def SchedEvent.isJoin : SchedEvent → Bool
  | .start _ => false
  | .join _ => true

/-- The order of thread operations performed by execute_parallel
(orchestrate.py lines 117-123): the first loop starts one thread per
worker, in dispatch order, and only then the second loop joins every
thread; the function returns only after the last join. -/
def execute_parallel_schedule (workers : List Worker) : List SchedEvent :=
  workers.map (fun w => SchedEvent.start w.id)
    ++ workers.map (fun w => SchedEvent.join w.id)

/-- A failure signal visible to a caller of the convenience helpers:
either the registry lookup raised KeyError (the WorkerNotFound
condition, raised before any remote attempt), or the executor call
propagated an exception. -/
inductive OrchError where
  | keyError (id : Int)
  | execError
deriving DecidableEq, Repr

/-- sync_all (orchestrate.py lines 127-130). -/
def sync_all (tr : Transport) : List (Int × (Int × String)) :=
  execute_parallel tr swarmWorkers "git pull origin dev"

/-- build_on_worker (orchestrate.py lines 132-135): SWARM[worker_id]
raises KeyError when the id is absent, before any remote attempt. -/
def build_on_worker (tr : Transport) (worker_id : Int) :
    Except OrchError (Int × String) :=
  match dictLookup worker_id SWARM with
  | none => Except.error (OrchError.keyError worker_id)
  | some worker =>
    match execute_on_worker tr worker "npm run build" true with
    | none => Except.error OrchError.execError
    | some r => Except.ok (r.returncode, r.output)

/-- lint_on_worker (orchestrate.py lines 137-140). -/
def lint_on_worker (tr : Transport) (worker_id : Int) :
    Except OrchError (Int × String) :=
  match dictLookup worker_id SWARM with
  | none => Except.error (OrchError.keyError worker_id)
  | some worker =>
    match execute_on_worker tr worker "npm run lint" true with
    | none => Except.error OrchError.execError
    | some r => Except.ok (r.returncode, r.output)

/-- test_on_worker (orchestrate.py lines 142-145). -/
def test_on_worker (tr : Transport) (worker_id : Int) :
    Except OrchError (Int × String) :=
  match dictLookup worker_id SWARM with
  | none => Except.error (OrchError.keyError worker_id)
  | some worker =>
    match execute_on_worker tr worker "npm test" true with
    | none => Except.error OrchError.execError
    | some r => Except.ok (r.returncode, r.output)

/-- Python truthiness of an Optional[int]: None and 0 are falsy. -/
def pyTruthy : Option Int → Bool
  | none => false
  | some i => i != 0

/-- The two shapes custom_command can return: a single (exit_code,
output) pair, or the broadcast dict. -/
inductive CustomOutcome where
  | single (res : Int × String)
  | broadcast (res : List (Int × (Int × String)))
deriving DecidableEq, Repr

/-- custom_command (orchestrate.py lines 156-163): `if worker_id:` is a
Python truthiness test, so None and 0 both take the broadcast branch. -/
def custom_command (tr : Transport) (worker_id : Option Int)
    (command : String) : Except OrchError CustomOutcome :=
  if pyTruthy worker_id then
    match worker_id with
    | none => Except.error (OrchError.keyError 0)
    | some i =>
      match dictLookup i SWARM with
      | none => Except.error (OrchError.keyError i)
      | some worker =>
        match execute_on_worker tr worker command true with
        | none => Except.error OrchError.execError
        | some r => Except.ok (CustomOutcome.single (r.returncode, r.output))
  else
    Except.ok (CustomOutcome.broadcast (execute_parallel tr swarmWorkers command))

/-- An abstract remote scenario, folded through SSH: the command ran to
completion with some exit status and output, the connection could not
be established, or authentication was rejected. -/
inductive RemoteScenario where
  | completes (returncode : Int) (events : List OutputEvent)
  | connectionFailure
  | authFailure
deriving DecidableEq, Repr

/-- Diagnostic ssh prints on stderr when the host is unreachable. -/
def connectionDiag : String := "ssh: connect to host: Connection refused"

/-- Diagnostic ssh prints on stderr when the key is rejected. -/
def authDiag : String := "Permission denied (publickey)."

/-- How the ssh client surfaces each scenario to its caller: the exit
status of the remote command on completion, and exit status 255 with a
diagnostic line on stderr for connection or authentication failures
(ssh never makes the calling subprocess machinery raise for these). -/
def sshRun : RemoteScenario → TransportBehavior
  | .completes returncode events => .runs returncode events
  | .connectionFailure => .runs 255 [.err (connectionDiag ++ "\n")]
  | .authFailure => .runs 255 [.err (authDiag ++ "\n")]

/-- The transport environment in which every invocation plays out the
given scenario over ssh. -/
def sshTransport (s : RemoteScenario) : Transport := fun _ _ => sshRun s

/-! Helper lemmas about the dict operations and the dispatch loop. -/

theorem dictLookup_dictInsert_self {α : Type} (k : Int) (v : α)
    (d : List (Int × α)) : dictLookup k (dictInsert k v d) = some v := by
  induction d with
  | nil => simp [dictInsert, dictLookup]
  | cons hd tl ih =>
    obtain ⟨k2, v2⟩ := hd
    by_cases h : k2 = k
    · simp [dictInsert, dictLookup, h]
    · simp [dictInsert, dictLookup, h, ih]

theorem dictLookup_dictInsert_ne {α : Type} (k k2 : Int) (v : α)
    (d : List (Int × α)) (h : k ≠ k2) :
    dictLookup k (dictInsert k2 v d) = dictLookup k d := by
  have h2 : ¬ (k2 = k) := fun hx => h hx.symm
  induction d with
  | nil => simp [dictInsert, dictLookup, h2]
  | cons hd tl ih =>
    obtain ⟨k3, v3⟩ := hd
    by_cases h3 : k3 = k2
    · subst h3
      simp [dictInsert, dictLookup, h2]
    · simp only [dictInsert, if_neg h3]
      by_cases h4 : k3 = k
      · simp [dictLookup, h4]
      · simp [dictLookup, h4, ih]

theorem dictInsert_length_of_fresh {α : Type} (k : Int) (v : α)
    (d : List (Int × α)) (h : dictLookup k d = none) :
    (dictInsert k v d).length = d.length + 1 := by
  induction d with
  | nil => simp [dictInsert]
  | cons hd tl ih =>
    obtain ⟨k2, v2⟩ := hd
    by_cases h2 : k2 = k
    · simp [dictLookup, h2] at h
    · simp only [dictLookup, if_neg h2] at h
      simp [dictInsert, h2, ih h]

theorem parallel_loop_lookup_of_not_mem (tr : Transport) (cmd : String)
    (ws : List Worker) (acc : List (Int × (Int × String))) (k : Int)
    (h : k ∉ ws.map (fun w => w.id)) :
    dictLookup k (parallel_loop tr cmd ws acc) = dictLookup k acc := by
  induction ws generalizing acc with
  | nil => rfl
  | cons w rest ih =>
    simp only [List.map_cons, List.mem_cons, not_or] at h
    rw [parallel_loop, ih _ h.2]
    unfold worker_task
    cases execute_on_worker tr w cmd true with
    | none => rfl
    | some r => exact dictLookup_dictInsert_ne _ _ _ _ h.1

theorem parallel_loop_lookup_of_runs (tr : Transport) (cmd : String)
    (ws : List Worker) (acc : List (Int × (Int × String))) (w : Worker)
    (c : Int) (evs : List OutputEvent)
    (hnd : (ws.map (fun x => x.id)).Nodup) (hw : w ∈ ws)
    (hrun : tr w cmd = TransportBehavior.runs c evs) :
    dictLookup w.id (parallel_loop tr cmd ws acc)
      = some (c, String.join (streamedLines evs)) := by
  induction ws generalizing acc with
  | nil => cases hw
  | cons w2 rest ih =>
    simp only [List.map_cons, List.nodup_cons] at hnd
    rcases List.mem_cons.mp hw with heq | hmem
    · subst heq
      rw [parallel_loop,
        parallel_loop_lookup_of_not_mem tr cmd rest _ w.id hnd.1]
      unfold worker_task execute_on_worker
      rw [hrun]
      simp [dictLookup_dictInsert_self]
    · rw [parallel_loop]
      exact ih _ hnd.2 hmem

theorem parallel_loop_lookup_of_raises (tr : Transport) (cmd : String)
    (ws : List Worker) (acc : List (Int × (Int × String))) (w : Worker)
    (hnd : (ws.map (fun x => x.id)).Nodup) (hw : w ∈ ws)
    (hraise : tr w cmd = TransportBehavior.raises) :
    dictLookup w.id (parallel_loop tr cmd ws acc) = dictLookup w.id acc := by
  induction ws generalizing acc with
  | nil => cases hw
  | cons w2 rest ih =>
    simp only [List.map_cons, List.nodup_cons] at hnd
    rcases List.mem_cons.mp hw with heq | hmem
    · subst heq
      rw [parallel_loop,
        parallel_loop_lookup_of_not_mem tr cmd rest _ w.id hnd.1]
      unfold worker_task execute_on_worker
      rw [hraise]
    · rw [parallel_loop, ih _ hnd.2 hmem]
      unfold worker_task
      cases execute_on_worker tr w2 cmd true with
      | none => rfl
      | some r =>
        refine dictLookup_dictInsert_ne _ _ _ _ ?_
        intro he
        exact hnd.1 (he ▸ List.mem_map_of_mem (fun x => x.id) hmem)

theorem parallel_loop_length (tr : Transport) (cmd : String)
    (ws : List Worker) (acc : List (Int × (Int × String)))
    (hnd : (ws.map (fun x => x.id)).Nodup)
    (hruns : ∀ w ∈ ws, tr w cmd ≠ TransportBehavior.raises)
    (hfresh : ∀ w ∈ ws, dictLookup w.id acc = none) :
    (parallel_loop tr cmd ws acc).length = acc.length + ws.length := by
  induction ws generalizing acc with
  | nil => simp [parallel_loop]
  | cons w rest ih =>
    simp only [List.map_cons, List.nodup_cons] at hnd
    cases hx : tr w cmd with
    | raises => exact absurd hx (hruns w (List.mem_cons_self w rest))
    | runs c evs =>
      rw [parallel_loop]
      have hstep : worker_task tr cmd acc w
          = dictInsert w.id (c, String.join (streamedLines evs)) acc := by
        unfold worker_task execute_on_worker
        rw [hx]
        simp
      rw [hstep]
      have hfreshw : dictLookup w.id acc = none :=
        hfresh w (List.mem_cons_self w rest)
      have hlen := dictInsert_length_of_fresh w.id
        (c, String.join (streamedLines evs)) acc hfreshw
      have hrest : ∀ w2 ∈ rest,
          dictLookup w2.id
            (dictInsert w.id (c, String.join (streamedLines evs)) acc)
            = none := by
        intro w2 hw2
        have hne : w2.id ≠ w.id := by
          intro he
          exact hnd.1 (he ▸ List.mem_map_of_mem (fun x => x.id) hw2)
        rw [dictLookup_dictInsert_ne _ _ _ _ hne]
        exact hfresh w2 (List.mem_cons_of_mem w hw2)
      rw [ih _ hnd.2 (fun w2 hw2 => hruns w2 (List.mem_cons_of_mem w hw2))
        hrest, hlen]
      simp only [List.length_cons]
      omega

/-! Small evaluation lemmas about String.join used in claim statements. -/

theorem string_join_nil : String.join [] = "" := rfl

theorem string_join_singleton (s : String) : String.join [s] = s := rfl

theorem string_join_three (a b c : String) :
    String.join [a, b, c] = a ++ b ++ c := rfl

theorem string_empty_append (s : String) : "" ++ s = s := rfl

/-! Concrete transport environments used by the witnesses. -/

/-- Every invocation succeeds printing one line. -/
def trOk : Transport :=
  fun _ _ => TransportBehavior.runs 0 [OutputEvent.out "ok\n"]

/-- The invocation on worker 2 raises; every other invocation succeeds
printing one line. -/
def trMixed : Transport :=
  fun w _ =>
    if w.id = 2 then TransportBehavior.raises
    else TransportBehavior.runs 0 [OutputEvent.out "ok\n"]

/-- Every invocation succeeds printing the three lines A, B, C. -/
def trABC : Transport :=
  fun _ _ => TransportBehavior.runs 0
    [OutputEvent.out "A\n", OutputEvent.out "B\n", OutputEvent.out "C\n"]

/-- The remote writes A and C to stdout and, between them, B to stderr. -/
def evsMixed : List OutputEvent :=
  [OutputEvent.out "A\n", OutputEvent.err "B\n", OutputEvent.out "C\n"]

/-! The claims. -/

/-- C1: for every list of dispatched workers (with the registry
invariant that their ids are distinct, and with every per-worker
invocation completing with a result, successful or not, as in the error
taxonomy of the spec), execute_parallel returns exactly one entry per
input worker, keyed by that worker id; no worker is silently omitted. -/
theorem C1_dispatch_result_complete (tr : Transport) (workers : List Worker)
    (command : String)
    (hids : (workers.map (fun w => w.id)).Nodup)
    (hruns : ∀ w ∈ workers, tr w command ≠ TransportBehavior.raises) :
    (execute_parallel tr workers command).length = workers.length ∧
    ∀ w ∈ workers, ∃ res,
      dictLookup w.id (execute_parallel tr workers command) = some res := by
  constructor
  · have h := parallel_loop_length tr command workers [] hids hruns
      (fun w _ => rfl)
    simpa [execute_parallel] using h
  · intro w hw
    cases hx : tr w command with
    | raises => exact absurd hx (hruns w hw)
    | runs c evs =>
      exact ⟨_, parallel_loop_lookup_of_runs tr command workers [] w c evs
        hids hw hx⟩

/-- C1 witness: broadcasting to the three configured workers over a
transport where one worker also could fail with a non-zero code yields
exactly three entries. -/
theorem C1_dispatch_result_complete_witness :
    (execute_parallel trOk swarmWorkers "echo ok").length = 3 :=
  (C1_dispatch_result_complete trOk swarmWorkers "echo ok" (by decide)
    (by decide)).1.trans (by decide)

/-- C6: failures are isolated per worker.  The dispatchAll entry of a
worker is exactly the result of its own single streaming executor
invocation, it is present whatever the other workers do (the transport
is unconstrained outside w), and two transports that agree on the
invocation of w produce the same entry for w; dispatchAll itself always
returns a result set. -/
theorem C6_failure_isolation (tr tr2 : Transport) (workers : List Worker)
    (command : String) (w : Worker) (c : Int) (evs : List OutputEvent)
    (hids : (workers.map (fun x => x.id)).Nodup) (hw : w ∈ workers)
    (hrun : tr w command = TransportBehavior.runs c evs)
    (hagree : tr2 w command = tr w command) :
    dictLookup w.id (execute_parallel tr workers command)
      = Option.map (fun r => (r.returncode, r.output))
          (execute_on_worker tr w command true) ∧
    dictLookup w.id (execute_parallel tr2 workers command)
      = dictLookup w.id (execute_parallel tr workers command) := by
  have h1 := parallel_loop_lookup_of_runs tr command workers [] w c evs
    hids hw hrun
  have h2 := parallel_loop_lookup_of_runs tr2 command workers [] w c evs
    hids hw (hagree.trans hrun)
  constructor
  · rw [execute_parallel, h1]
    unfold execute_on_worker
    rw [hrun]
    simp
  · rw [execute_parallel, execute_parallel, h2, h1]

/-- C6 witness: the entry of worker 1 is the same whether the sibling
worker 2 raises (trMixed) or succeeds (trOk). -/
theorem C6_failure_isolation_witness :
    dictLookup worker1.id (execute_parallel trMixed swarmWorkers "npm test")
      = dictLookup worker1.id (execute_parallel trOk swarmWorkers "npm test") :=
  (C6_failure_isolation trOk trMixed swarmWorkers "npm test" worker1 0
    [OutputEvent.out "ok\n"] (by decide) (by decide) rfl (by decide)).2

/-- C10: when the executor invocation of some worker raises instead of
returning, execute_parallel still returns, but the returned dict
silently lacks that worker: no placeholder entry exists under its id,
while every worker whose invocation completed keeps its entry. -/
theorem C10_raising_worker_silently_omitted (tr : Transport)
    (workers : List Worker) (command : String) (w : Worker)
    (hids : (workers.map (fun x => x.id)).Nodup) (hw : w ∈ workers)
    (hraise : tr w command = TransportBehavior.raises) :
    dictLookup w.id (execute_parallel tr workers command) = none ∧
    ∀ w2 ∈ workers, ∀ c evs,
      tr w2 command = TransportBehavior.runs c evs →
      dictLookup w2.id (execute_parallel tr workers command)
        = some (c, String.join (streamedLines evs)) := by
  constructor
  · exact parallel_loop_lookup_of_raises tr command workers [] w hids hw hraise
  · intro w2 hw2 c evs hx
    exact parallel_loop_lookup_of_runs tr command workers [] w2 c evs
      hids hw2 hx

/-- C10 witness: under trMixed the entry for worker 2 is absent while
worker 1 keeps its successful result. -/
theorem C10_raising_worker_silently_omitted_witness :
    dictLookup worker2.id (execute_parallel trMixed swarmWorkers "cmd")
      = none ∧
    dictLookup worker1.id (execute_parallel trMixed swarmWorkers "cmd")
      = some (0, "ok\n") := by
  have h := C10_raising_worker_silently_omitted trMixed swarmWorkers "cmd"
    worker2 (by decide) (by decide) (by decide)
  exact ⟨h.1, h.2 worker1 (by decide) 0 [OutputEvent.out "ok\n"] (by decide)⟩

/-- C9: calling custom_command with worker id 0 takes the broadcast
branch (0 is falsy, just like an absent id), dispatching to all
registry workers in parallel rather than looking up a single worker or
failing with the WorkerNotFound condition. -/
theorem C9_worker_id_zero_broadcasts (tr : Transport) (command : String) :
    custom_command tr (some 0) command
      = Except.ok (CustomOutcome.broadcast
          (execute_parallel tr swarmWorkers command)) ∧
    custom_command tr (some 0) command = custom_command tr none command := by
  constructor <;> rfl

/-- C5: lookup on an id absent from the registry fails with the
WorkerNotFound condition (the KeyError raised by the dict access),
before any remote attempt is made (the result does not depend on the
transport at all); in particular id 99 fails that way; and every
configured id resolves to its worker. -/
theorem C5_lookup_worker_not_found :
    (∀ id : Int, id ∉ SWARM.map (fun p => p.1) →
      dictLookup id SWARM = none ∧
      ∀ tr : Transport, build_on_worker tr id
        = Except.error (OrchError.keyError id)) ∧
    (∀ tr : Transport, build_on_worker tr 99
      = Except.error (OrchError.keyError 99)) ∧
    (∀ p ∈ SWARM, dictLookup p.1 SWARM = some p.2) := by
  have habs : ∀ id : Int, id ∉ SWARM.map (fun p => p.1) →
      dictLookup id SWARM = none := by
    intro id h
    simp only [SWARM, List.map_cons, List.map_nil, List.mem_cons,
      List.not_mem_nil, or_false, not_or] at h
    obtain ⟨h1, h2, h3⟩ := h
    simp [dictLookup, SWARM, Ne.symm h1, Ne.symm h2, Ne.symm h3]
  refine ⟨fun id h => ⟨habs id h, fun tr => ?_⟩, fun tr => ?_, ?_⟩
  · unfold build_on_worker
    rw [habs id h]
  · unfold build_on_worker
    rw [habs 99 (by decide)]
  · intro p hp
    fin_cases hp <;> rfl

/-- C5 witness: id 99 is absent, its lookup returns nothing and
build_on_worker fails with the WorkerNotFound signal whatever the
transport would have done. -/
theorem C5_lookup_worker_not_found_witness :
    dictLookup 99 SWARM = none ∧
    build_on_worker (fun _ _ => TransportBehavior.raises) 99
      = Except.error (OrchError.keyError 99) :=
  ⟨(C5_lookup_worker_not_found.1 99 (by decide)).1,
   C5_lookup_worker_not_found.2.1 (fun _ _ => TransportBehavior.raises)⟩

/-- C2: over the ssh transport, in both streaming and captured mode,
execute_on_worker always returns an ExecutionResult: a remote command
that completes yields its exit status verbatim, and a connection or
authentication failure is represented as exit status 255 (non-zero)
with the ssh diagnostic as the output text, never as a propagated
fault. -/
theorem C2_executor_always_returns (mode : Bool) (w : Worker) (cmd : String)
    (s : RemoteScenario) :
    (execute_on_worker (sshTransport s) w cmd mode).isSome = true ∧
    (∀ c evs, s = RemoteScenario.completes c evs →
      Option.map ExecutionResult.returncode
        (execute_on_worker (sshTransport s) w cmd mode) = some c) ∧
    (s = RemoteScenario.connectionFailure →
      Option.map ExecutionResult.returncode
        (execute_on_worker (sshTransport s) w cmd mode) = some 255 ∧
      Option.map ExecutionResult.output
        (execute_on_worker (sshTransport s) w cmd mode)
        = some (connectionDiag ++ "\n")) ∧
    (s = RemoteScenario.authFailure →
      Option.map ExecutionResult.returncode
        (execute_on_worker (sshTransport s) w cmd mode) = some 255 ∧
      Option.map ExecutionResult.output
        (execute_on_worker (sshTransport s) w cmd mode)
        = some (authDiag ++ "\n")) := by
  cases s <;> cases mode <;>
    simp [execute_on_worker, sshTransport, sshRun, streamedLines,
      stdoutText, stderrText, OutputEvent.text, string_join_nil,
      string_join_singleton, string_empty_append]

/-- C2 witness: a connection failure during a streamed build on worker 1
comes back as a result carrying the diagnostic, not as a fault. -/
theorem C2_executor_always_returns_witness :
    Option.map ExecutionResult.output
      (execute_on_worker (sshTransport RemoteScenario.connectionFailure)
        worker1 "npm run build" true)
      = some (connectionDiag ++ "\n") :=
  ((C2_executor_always_returns true worker1 "npm run build"
    RemoteScenario.connectionFailure).2.2.1 rfl).2

/-- C3 counterexample: it is not true that in both modes the output
field is the combined stdout and stderr text in the exact order the
remote process produced it: in captured mode a process that writes A to
stdout, then B to stderr, then C to stdout yields output A, C, B. -/
theorem C3_output_order_counterexample :
    ¬ (∀ (tr : Transport) (w : Worker) (cmd : String) (mode : Bool)
        (c : Int) (evs : List OutputEvent),
        tr w cmd = TransportBehavior.runs c evs →
        Option.map ExecutionResult.output (execute_on_worker tr w cmd mode)
          = some (producedText evs)) := by
  intro hclaim
  have h := hclaim (fun _ _ => TransportBehavior.runs 0 evsMixed) worker1
    "npm run build" false 0 evsMixed rfl
  have he : Option.map ExecutionResult.output
      (execute_on_worker (fun _ _ => TransportBehavior.runs 0 evsMixed)
        worker1 "npm run build" false)
      = some "A\nC\nB\n" := by decide
  rw [he] at h
  have hne : ("A\nC\nB\n" : String) = producedText evsMixed :=
    Option.some.inj h
  exact absurd hne (by decide)

/-- C3 amended: in streaming mode the output field is the combined
stdout and stderr text with the interleaved production order preserved
exactly; in captured mode it is the full stdout text, in order,
followed by the full stderr text, in order, so no content is dropped
but the cross-stream interleaving is not preserved; in both modes the
output is fully populated and the exit status is returned verbatim even
when it is non-zero. -/
theorem C3_output_order_amended (tr : Transport) (w : Worker) (cmd : String)
    (c : Int) (evs : List OutputEvent)
    (h : tr w cmd = TransportBehavior.runs c evs) :
    Option.map ExecutionResult.output (execute_on_worker tr w cmd true)
      = some (producedText evs) ∧
    Option.map ExecutionResult.output (execute_on_worker tr w cmd false)
      = some (stdoutText evs ++ stderrText evs) ∧
    Option.map ExecutionResult.returncode (execute_on_worker tr w cmd true)
      = some c ∧
    Option.map ExecutionResult.returncode (execute_on_worker tr w cmd false)
      = some c := by
  unfold execute_on_worker
  rw [h]
  simp [streamedLines, producedText]

/-- C3 amended witness: the captured-mode output for the mixed-stream
run on worker 2 with a non-zero exit status is all of stdout followed
by all of stderr. -/
theorem C3_output_order_amended_witness :
    Option.map ExecutionResult.output
      (execute_on_worker (fun _ _ => TransportBehavior.runs 2 evsMixed)
        worker2 "npm test" false)
      = some (stdoutText evsMixed ++ stderrText evsMixed) :=
  (C3_output_order_amended (fun _ _ => TransportBehavior.runs 2 evsMixed)
    worker2 "npm test" 2 evsMixed rfl).2.1

/-- C4: in streaming mode every line of remote output is forwarded to
the console sink prefixed with the id of the originating worker, in
production order, and the same lines are accumulated into the output
field; in particular a worker that prints lines A, B, C in that order
has output A, B, C in that order and console lines prefixed in that
order. -/
theorem C4_streaming_forwards_and_accumulates (tr : Transport) (w : Worker)
    (cmd : String) (c : Int) (evs : List OutputEvent)
    (h : tr w cmd = TransportBehavior.runs c evs) :
    Option.map ExecutionResult.console (execute_on_worker tr w cmd true)
      = some ((streamedLines evs).map (consoleLine w)) ∧
    Option.map ExecutionResult.output (execute_on_worker tr w cmd true)
      = some (String.join (streamedLines evs)) ∧
    ∀ A B C : String,
      evs = [OutputEvent.out A, OutputEvent.out B, OutputEvent.out C] →
      Option.map ExecutionResult.output (execute_on_worker tr w cmd true)
        = some (A ++ B ++ C) ∧
      Option.map ExecutionResult.console (execute_on_worker tr w cmd true)
        = some [consoleLine w A, consoleLine w B, consoleLine w C] := by
  unfold execute_on_worker
  rw [h]
  refine ⟨by simp, by simp, ?_⟩
  rintro A B C rfl
  constructor
  · simp [streamedLines, OutputEvent.text, string_join_three]
  · simp [streamedLines, OutputEvent.text]

/-- C4 witness: a worker printing A, B, C accumulates exactly A, B, C
in order and forwards the three prefixed console lines in order. -/
theorem C4_streaming_forwards_and_accumulates_witness :
    Option.map ExecutionResult.output
      (execute_on_worker trABC worker3 "seq 1 3" true)
      = some ("A\n" ++ "B\n" ++ "C\n") ∧
    Option.map ExecutionResult.console
      (execute_on_worker trABC worker3 "seq 1 3" true)
      = some [consoleLine worker3 "A\n", consoleLine worker3 "B\n",
          consoleLine worker3 "C\n"] :=
  (C4_streaming_forwards_and_accumulates trABC worker3 "seq 1 3" 0 _
    rfl).2.2 "A\n" "B\n" "C\n" rfl

/-- C7: execute_parallel is a true fan-out with a join barrier: in its
thread-operation schedule every start precedes every join (all
invocations are launched before any is awaited), and every dispatched
worker has both a start and a join in the schedule, the joins all
happening before the function returns its results. -/
theorem C7_fanout_then_join_barrier (workers : List Worker) :
    (∀ (i j : Nat) (hi : i < (execute_parallel_schedule workers).length)
      (hj : j < (execute_parallel_schedule workers).length),
      ((execute_parallel_schedule workers).get ⟨i, hi⟩).isStart = true →
      ((execute_parallel_schedule workers).get ⟨j, hj⟩).isJoin = true →
      i < j) ∧
    (∀ w ∈ workers,
      SchedEvent.start w.id ∈ execute_parallel_schedule workers) ∧
    (∀ w ∈ workers,
      SchedEvent.join w.id ∈ execute_parallel_schedule workers) := by
  refine ⟨?_, ?_, ?_⟩
  · intro i j hi hj hs hjn
    rw [List.get_eq_getElem] at hs hjn
    simp only [execute_parallel_schedule] at hs hjn hi hj
    have hiL : i < workers.length := by
      by_contra hcon
      push_neg at hcon
      have hge : (workers.map (fun w => SchedEvent.start w.id)).length ≤ i := by
        simpa using hcon
      rw [List.getElem_append_right hge] at hs
      simp [SchedEvent.isStart] at hs
    have hjR : workers.length ≤ j := by
      by_contra hcon
      push_neg at hcon
      have hlt : j < (workers.map (fun w => SchedEvent.start w.id)).length := by
        simpa using hcon
      rw [List.getElem_append_left hlt] at hjn
      simp [SchedEvent.isJoin] at hjn
    omega
  · intro w hw
    exact List.mem_append_left _
      (List.mem_map_of_mem (fun w => SchedEvent.start w.id) hw)
  · intro w hw
    exact List.mem_append_right _
      (List.mem_map_of_mem (fun w => SchedEvent.join w.id) hw)

/-- C7 witness: in the schedule for the three configured workers, the
join of worker 1 is present (and, by the theorem, only after all three
starts). -/
theorem C7_fanout_then_join_barrier_witness :
    SchedEvent.join worker1.id ∈ execute_parallel_schedule swarmWorkers :=
  (C7_fanout_then_join_barrier swarmWorkers).2.2 worker1 (by decide)

end Orchestrate
